import Mathlib

/-!
Verification of the GCalJSON service core (src/main.go): the event
normalizer `transformEvent`, the fetch-transform-cache pipeline
`fetchEvents`, and the HTTP handler `getEventsHandler` / `errorResponse`.

The Go code is embedded shallowly:
* Go structs become Lean structures with the same field names; a Go
  pointer field (`*calendar.EventDateTime`) becomes an `Option`, and a
  nil-pointer dereference is modelled as the `none` result of an
  `Option`-valued function (a panic).
* `time.Date` / `time.Time.Add` civil arithmetic is embedded on a
  `DateTime` record over a fixed-offset location (the code only ever uses
  one location, `nowTime.Location()`).
* The go-cache single-slot cache ("events" key) is a `CacheState` with an
  optional entry carrying an expiration instant, as in
  `github.com/patrickmn/go-cache`: `Get` treats `now > expiration` as
  absent, `Set` with the default expiration stores `now + duration`.
* The upstream `srv.Events.List(...).Do()` call is an injected function
  from the two formatted window bounds to `Except String (List CalItem)`;
  a nil `*calendar.Service` is `none` (calling through it would panic).
* `encoding/json` marshalling of the `Event` struct follows its tags
  (`omitempty` on description/location); the `res` slice built by
  `fetchEvents` is nil exactly when the item list is empty, and Go
  marshals a nil slice as `null`, so the empty list encodes to "null".
-/

namespace GCalJSON

/-- Civil date-time in the process's (fixed-offset) local location:
the components Go's `time.Date` receives and `Format` prints. -/
structure DateTime where
  year : Int
  month : Int
  day : Nat
  hour : Nat
  minute : Nat
  second : Nat
deriving Repr, DecidableEq

/-- Month normalization performed by Go's `time.Date`: the month argument
may lie outside 1..12 and is folded into that range, adjusting the year
(Go's `norm` helper, which is floored division by 12 on month-1). -/
def normMonth (year month : Int) : Int × Int :=
  let m := month - 1
  (year + m.ediv 12, m.emod 12 + 1)

/-- Go's `time.Date(year, month, day, hour, min, sec, 0, loc)` for the
arguments this program uses (day/hour/min/sec already in range; only the
month argument can overflow, via `nowTime.Month()+2`). -/
def goDate (year month : Int) (day hour minute second : Nat) : DateTime :=
  let p := normMonth year month
  ⟨p.1, p.2, day, hour, minute, second⟩

/-- Proleptic-Gregorian leap-year rule, as in Go's `time` package. -/
def isLeap (y : Int) : Bool :=
  (y % 4 == 0 && y % 100 != 0) || y % 400 == 0

/-- Number of days of month `m` of year `y` (months numbered 1..12). -/
def daysInMonth (y m : Int) : Nat :=
  if m = 2 then (if isLeap y then 29 else 28)
  else if m = 4 ∨ m = 6 ∨ m = 9 ∨ m = 11 then 30
  else 31

/-- Go's `t.Add(-time.Second)` expressed on the civil components, for a
fixed-offset location (the absolute timeline shifts by one second, so the
civil components roll back by one second). -/
def subOneSecond (d : DateTime) : DateTime :=
  if d.second > 0 then { d with second := d.second - 1 }
  else if d.minute > 0 then { d with minute := d.minute - 1, second := 59 }
  else if d.hour > 0 then { d with hour := d.hour - 1, minute := 59, second := 59 }
  else if d.day > 1 then { d with day := d.day - 1, hour := 23, minute := 59, second := 59 }
  else
    let p := if d.month = 1 then (d.year - 1, (12 : Int)) else (d.year, d.month - 1)
    ⟨p.1, p.2, daysInMonth p.1 p.2, 23, 59, 59⟩

/-- The query-window computation of `fetchEvents` (src/main.go lines
68-85): previous month's first day, and the first day of the month two
months ahead minus one second. -/
def windowTimes (nowTime : DateTime) : DateTime × DateTime :=
  let p :=
    if nowTime.month = 1 then (nowTime.year - 1, (12 : Int))
    else (nowTime.year, nowTime.month - 1)
  let tMinTime := goDate p.1 p.2 1 0 0 0
  let tMaxBase := goDate nowTime.year (nowTime.month + 2) 1 0 0 0
  let tMaxTime := subOneSecond tMaxBase
  (tMinTime, tMaxTime)

/-- Two-digit zero padding, as Go's time formatting uses for month, day,
hour, minute and second. -/
def pad2 (n : Nat) : String :=
  if n < 10 then "0" ++ toString n else toString n

/-- The local date-time part of Go's `Format(time.RFC3339)`,
"2006-01-02T15:04:05".  (`Format` appends the location's constant UTC
offset suffix after this part; the offset is the same for both bounds and
is not material to any claim, so it is left off.) -/
def rfc3339Local (d : DateTime) : String :=
  toString d.year ++ "-" ++ pad2 d.month.toNat ++ "-" ++ pad2 d.day ++
    "T" ++ pad2 d.hour ++ ":" ++ pad2 d.minute ++ ":" ++ pad2 d.second

/-- The output entity `Event` of src/main.go (lines 28-34): five string
fields; the JSON tags give lowercase keys with `omitempty` on
description and location. -/
structure Event where
  Title : String
  Start : String
  End : String
  Description : String
  Location : String
deriving Repr, DecidableEq

/-- Struct `calendar.EventDateTime` of the upstream client library: the two
string fields `transformEvent` reads (`DateTime` for a precise instant,
`Date` for an all-day event). -/
structure EventDateTime where
  DateTime : String
  Date : String
deriving Repr, DecidableEq

/-- An upstream `*calendar.Event` record, restricted to the fields
`transformEvent` reads.  `Start` and `End` are pointers
(`*calendar.EventDateTime`) in Go, hence `Option` here: `none` is a nil
pointer. -/
structure CalItem where
  Summary : String
  Description : String
  Location : String
  Start : Option EventDateTime
  End : Option EventDateTime
deriving Repr, DecidableEq

/-- Function `transformEvent` (src/main.go lines 41-57).  The Go body dereferences
`item.Start` and `item.End` unconditionally (`item.Start.DateTime`), so a
nil pointer there panics: that is the `none` result.  Otherwise the
date-time field wins when non-empty, else the date-only field. -/
def transformEvent (item : CalItem) : Option Event :=
  match item.Start, item.End with
  | some st, some en =>
    let start := if st.DateTime = "" then st.Date else st.DateTime
    let endv := if en.DateTime = "" then en.Date else en.DateTime
    some { Title := item.Summary, Start := start, End := endv,
           Description := item.Description, Location := item.Location }
  | _, _ => none

/-- A value stored in the go-cache slot under the key "events": either an
`[]Event` (the only thing this program stores) or a value of some other
dynamic type, on which the `cached.([]Event)` type assertion fails. -/
inductive CachedVal where
  | evs (l : List Event)
  | other
deriving Repr, DecidableEq

/-- The single-slot view of `eventCache` relevant to this program: the
entry under the fixed key "events" (value plus expiration instant, in
nanoseconds as go-cache stores it) and the default duration configured at
`cache.New`. -/
structure CacheState where
  entry : Option (CachedVal × Nat)
  defaultDuration : Nat
deriving Repr, DecidableEq

/-- go-cache `Get`: absent when no entry, or when the entry has a positive
expiration that lies strictly in the past; no mutation on a miss. -/
def cacheGet (c : CacheState) (now : Nat) : Option CachedVal :=
  match c.entry with
  | none => none
  | some (v, exp) => if exp > 0 ∧ now > exp then none else some v

/-- go-cache `Set` with `cache.DefaultExpiration`: overwrites the slot
with the new list, expiring at `now + defaultDuration` (no expiration
when the configured duration is zero). -/
def cacheSet (c : CacheState) (now : Nat) (l : List Event) : CacheState :=
  { c with
    entry := some (.evs l, if c.defaultDuration > 0 then now + c.defaultDuration else 0) }

/-- The upstream listing capability `srv.Events.List(calendarID)...Do()`,
as a function of the two formatted window bounds it is given; the answer
is either the item list or the error `Do` returned. -/
def CalSrv : Type := String → String → Except String (List CalItem)

/-- The result-building loop of `fetchEvents` (src/main.go lines
101-104): `transformEvent` applied to each item in upstream order,
appending to `res`; a panic of `transformEvent` (nil `Start`/`End`)
aborts the whole call (`none`). -/
def transformAll : List CalItem → Option (List Event)
  | [] => some []
  | item :: rest =>
    match transformEvent item, transformAll rest with
    | some ev, some evs => some (ev :: evs)
    | _, _ => none

/-- Function `fetchEvents` (src/main.go lines 60-107).  `srv = none` is a nil
`*calendar.Service`; reaching the upstream call through it would panic,
which is the `none` result, as is a panic of `transformEvent` inside the
loop.  `nowTime` and `nowT` are the civil and scalar views of the single
`time.Now()` the code reads. -/
def fetchEvents (srv : Option CalSrv) (c : CacheState) (nowTime : DateTime) (nowT : Nat) :
    Option (Except String (List Event) × CacheState) :=
  match cacheGet c nowT with
  | some (.evs events) => some (.ok events, c)
  | _ =>
    let w := windowTimes nowTime
    let timeMin := rfc3339Local w.1
    let timeMax := rfc3339Local w.2
    match srv with
    | none => none
    | some call =>
      match call timeMin timeMax with
      | .error e => some (.error e, c)
      | .ok items =>
        match transformAll items with
        | none => none
        | some res => some (.ok res, cacheSet c nowT res)

/-- One hexadecimal digit, lowercase, as `encoding/json` prints in
`\u00XX` escapes. -/
def hexDigit (n : Nat) : Char :=
  if n < 10 then Char.ofNat (48 + n) else Char.ofNat (87 + n)

/-- Escaping of one character inside a JSON string by `encoding/json`
with the encoder's default HTML escaping: quote, backslash, newline,
carriage return and tab get two-character escapes; other control
characters and the HTML-sensitive characters get a `\u00XX` escape. -/
def jsonEscapeChar (c : Char) : String :=
  if c = '"' then "\\\""
  else if c = '\\' then "\\\\"
  else if c = '\n' then "\\n"
  else if c = '\r' then "\\r"
  else if c = '\t' then "\\t"
  else if c = '<' ∨ c = '>' ∨ c = '&' ∨ c.toNat < 32 then
    "\\u00" ++ String.mk [hexDigit (c.toNat / 16 % 16), hexDigit (c.toNat % 16)]
  else String.singleton c

/-- A Go string as a JSON string literal. -/
def jsonQuote (s : String) : String :=
  "\"" ++ String.join (s.data.map jsonEscapeChar) ++ "\""

/-- The `encoding/json` marshalling of one `Event`, following the struct tags
of src/main.go lines 28-34: lowercase keys, `description` and `location`
marked `omitempty`, so those key/value pairs are dropped when the string
is empty. -/
def encodeEvent (ev : Event) : String :=
  "\x7b\"title\":" ++ jsonQuote ev.Title ++
    ",\"start\":" ++ jsonQuote ev.Start ++
    ",\"end\":" ++ jsonQuote ev.End ++
    (if ev.Description = "" then "" else ",\"description\":" ++ jsonQuote ev.Description) ++
    (if ev.Location = "" then "" else ",\"location\":" ++ jsonQuote ev.Location) ++
    "\x7d"

/-- The `encoding/json` marshalling of the event list `fetchEvents` builds.
The Go accumulator (`var res []Event` plus `append`) is the nil slice
exactly when there are no items, and Go marshals a nil `[]Event` as
`null`; a non-empty slice marshals as a JSON array. -/
def encodeEventList : List Event → String
  | [] => "null"
  | e :: es =>
    "[" ++ encodeEvent e ++
      String.join (es.map (fun x => "," ++ encodeEvent x)) ++ "]"

/-- What the handler writes for one request: status code, the
Content-Type header it set, the bytes written to the body, and the lines
written to the server-side log. -/
structure HttpResponse where
  status : Nat
  contentType : String
  body : String
  log : List String
deriving Repr, DecidableEq

/-- Function `errorResponse` (src/main.go lines 110-115): logs the message with
the underlying error detail, sets the JSON content type, writes the
status code, and encodes `map[string]string{"error": message}` (the
encoder appends a newline). -/
def errorResponse (code : Nat) (message : String) (errDetail : String) : HttpResponse :=
  { status := code
    contentType := "application/json"
    body := "\x7b\"error\":" ++ jsonQuote message ++ "\x7d\n"
    log := ["Error: " ++ message ++ ": " ++ errDetail] }

/-- The request handler returned by `getEventsHandler` (src/main.go
lines 126-138), one request: run `fetchEvents`; on error answer through
`errorResponse` with "Failed to fetch events"; on success set the JSON
content type and encode the list (status 200 implied by the first write),
unless the encoder's underlying write fails (`writeErr = some detail`,
an I/O failure external to this code), in which case `errorResponse`
is called with "Failed to encode response".  `none` is a panic inside
`fetchEvents`. -/
def handleRequest (srv : Option CalSrv) (c : CacheState) (nowTime : DateTime) (nowT : Nat)
    (writeErr : Option String) : Option (HttpResponse × CacheState) :=
  match fetchEvents srv c nowTime nowT with
  | none => none
  | some (.error e, c2) => some (errorResponse 500 "Failed to fetch events" e, c2)
  | some (.ok events, c2) =>
    match writeErr with
    | none =>
      some ({ status := 200, contentType := "application/json",
              body := encodeEventList events ++ "\n", log := [] }, c2)
    | some we => some (errorResponse 500 "Failed to encode response" we, c2)

/-- The spec's notion of a 200 body that is a JSON array: the written
bytes are a bracketed array followed by the encoder's newline.
(Spec-side definition, for comparison with what the code produces.) -/
def isJsonArrayOutput (s : String) : Prop :=
  ∃ t, s = "[" ++ t ++ "]\n"

/-! Concrete fixtures used to instantiate the theorems below, taken from
the repository's own tests (src/main_test.go) and the spec's end-to-end
scenarios. -/

/-- The cached event of `TestGetEventsHandler` in src/main_test.go. -/
def sampleEvent : Event :=
  ⟨"Dummy Event", "2023-03-01T09:00:00Z", "2023-03-01T10:00:00Z", "", ""⟩

/-- A cache whose "events" slot holds `[sampleEvent]`, unexpired at
instants up to 100. -/
def hitCache : CacheState := ⟨some (.evs [sampleEvent], 100), 300⟩

/-- An empty cache (no "events" entry). -/
def missCache : CacheState := ⟨none, 300⟩

/-- A cache whose "events" slot holds a value that is not an `[]Event`. -/
def otherCache : CacheState := ⟨some (.other, 100), 300⟩

/-- A fixed current time, 2024-03-15 (the spec's window scenario). -/
def now0 : DateTime := ⟨2024, 3, 15, 10, 30, 0⟩

/-- The upstream record of the spec's end-to-end scenario 1. -/
def sampleItem : CalItem :=
  ⟨"Standup", "", "", some ⟨"2024-05-01T09:00:00Z", ""⟩, some ⟨"2024-05-01T09:30:00Z", ""⟩⟩

/-- An upstream client answering one event. -/
def srvOk : CalSrv := fun _ _ => .ok [sampleItem]

/-- An upstream client answering zero events. -/
def srvEmpty : CalSrv := fun _ _ => .ok []

/-- An upstream client that fails. -/
def srvErr : CalSrv := fun _ _ => .error "network unreachable"

/-! ## Claims -/

/-- C1: on a cache miss the query window has `timeMin` the first instant
(day 1, 00:00:00 local) of the month preceding the current month,
rolling to December of the previous year in January, and `timeMax` one
second before the first instant of the month two months ahead, i.e. the
last second (23:59:59) of the next month; for a current time in
2024-03-15 the formatted bounds are 2024-02-01T00:00:00 and
2024-04-30T23:59:59. -/
theorem C1_query_window (now : DateTime) (h1 : 1 ≤ now.month) (h2 : now.month ≤ 12) :
    (windowTimes now).1 =
      ⟨if now.month = 1 then now.year - 1 else now.year,
       if now.month = 1 then 12 else now.month - 1, 1, 0, 0, 0⟩ ∧
    (windowTimes now).2 =
      ⟨if now.month = 12 then now.year + 1 else now.year,
       if now.month = 12 then 1 else now.month + 1,
       daysInMonth (if now.month = 12 then now.year + 1 else now.year)
         (if now.month = 12 then 1 else now.month + 1), 23, 59, 59⟩ ∧
    rfc3339Local (windowTimes now0).1 = "2024-02-01T00:00:00" ∧
    rfc3339Local (windowTimes now0).2 = "2024-04-30T23:59:59" := by
  obtain ⟨y, m, d, hh, mm, ss⟩ := now
  refine ⟨?_, ?_, by decide, by decide⟩ <;>
  · simp only at h1 h2
    interval_cases m <;>
      norm_num [windowTimes, goDate, normMonth, subOneSecond, daysInMonth,
        DateTime.mk.injEq]

/-- C1 witness: the theorem applied at the concrete current time
2024-03-15. -/
theorem C1_query_window_witness :
    (1 : Int) ≤ now0.month ∧ now0.month ≤ 12 ∧
    rfc3339Local (windowTimes now0).1 = "2024-02-01T00:00:00" := by
  refine ⟨by decide, by decide, ?_⟩
  exact (C1_query_window now0 (by decide) (by decide)).2.2.1

/-- C2: when the cache holds an unexpired `[]Event` under "events",
`fetchEvents` returns exactly that list with the cache unchanged, for
every upstream client — including a nil one (`srv = none`), which shows
no upstream call and no cache write happen on a hit. -/
theorem C2_cache_hit (srv : Option CalSrv) (c : CacheState) (nowTime : DateTime)
    (nowT : Nat) (l : List Event) (h : cacheGet c nowT = some (.evs l)) :
    fetchEvents srv c nowTime nowT = some (.ok l, c) := by
  simp [fetchEvents, h]

/-- C2 witness: a pre-populated cache and a nil upstream client still
yield the cached event. -/
theorem C2_cache_hit_witness :
    cacheGet hitCache 50 = some (.evs [sampleEvent]) ∧
    fetchEvents none hitCache now0 50 = some (.ok [sampleEvent], hitCache) :=
  ⟨by decide, C2_cache_hit none hitCache now0 50 [sampleEvent] (by decide)⟩

/-- Helper: a successful run of the transform loop is the elementwise,
order-preserving image of `transformEvent`. -/
theorem transformAll_eq_map (items : List CalItem) (res : List Event)
    (h : transformAll items = some res) :
    items.map transformEvent = res.map some := by
  induction items generalizing res with
  | nil => simp [transformAll] at h; simp [h]
  | cons a t ih =>
    simp only [transformAll] at h
    rcases hb : transformEvent a with _ | b <;> rw [hb] at h
    · simp at h
    · rcases ht : transformAll t with _ | bs <;> rw [ht] at h
      · simp at h
      · simp at h
        simp [hb, ih bs ht, ← h]

/-- C3: on a cache miss, when the upstream listing call fails with `e`,
`fetchEvents` propagates exactly that error and returns the cache state
untouched (no partial result, no cache write). -/
theorem C3_upstream_error (call : CalSrv) (c : CacheState) (nowTime : DateTime)
    (nowT : Nat) (e : String)
    (hmiss : cacheGet c nowT = none)
    (herr : call (rfc3339Local (windowTimes nowTime).1)
        (rfc3339Local (windowTimes nowTime).2) = .error e) :
    fetchEvents (some call) c nowTime nowT = some (.error e, c) := by
  simp [fetchEvents, hmiss, herr]

/-- C3 witness: an empty cache and a failing upstream client. -/
theorem C3_upstream_error_witness :
    cacheGet missCache 50 = none ∧
    fetchEvents (some srvErr) missCache now0 50 = some (.error "network unreachable", missCache) :=
  ⟨by decide, C3_upstream_error srvErr missCache now0 50 "network unreachable" (by decide) rfl⟩

/-- C4: on a cache miss, when the upstream call succeeds with items `I`
(and normalizing each succeeds, i.e. no record panics), `fetchEvents`
returns the elementwise normalization of `I` in upstream order and
stores exactly that list in the cache slot before returning. -/
theorem C4_miss_success (call : CalSrv) (c : CacheState) (nowTime : DateTime)
    (nowT : Nat) (items : List CalItem) (res : List Event)
    (hmiss : cacheGet c nowT = none)
    (hok : call (rfc3339Local (windowTimes nowTime).1)
        (rfc3339Local (windowTimes nowTime).2) = .ok items)
    (hres : transformAll items = some res) :
    fetchEvents (some call) c nowTime nowT = some (.ok res, cacheSet c nowT res) ∧
    items.map transformEvent = res.map some ∧
    (cacheSet c nowT res).entry =
      some (.evs res, if c.defaultDuration > 0 then nowT + c.defaultDuration else 0) := by
  refine ⟨?_, transformAll_eq_map items res hres, rfl⟩
  simp [fetchEvents, hmiss, hok, hres]

/-- C4 witness: an empty cache, one upstream item, concrete outputs. -/
theorem C4_miss_success_witness :
    cacheGet missCache 50 = none ∧
    fetchEvents (some srvOk) missCache now0 50 =
      some (.ok [⟨"Standup", "2024-05-01T09:00:00Z", "2024-05-01T09:30:00Z", "", ""⟩],
        cacheSet missCache 50 [⟨"Standup", "2024-05-01T09:00:00Z", "2024-05-01T09:30:00Z", "", ""⟩]) :=
  ⟨by decide,
    (C4_miss_success srvOk missCache now0 50 [sampleItem]
      [⟨"Standup", "2024-05-01T09:00:00Z", "2024-05-01T09:30:00Z", "", ""⟩]
      (by decide) rfl (by decide)).1⟩

/-- C10: when the "events" slot holds an unexpired value that is not an
`[]Event`, `fetchEvents` neither fails nor panics on it: the failed type
assertion falls through to the miss path, so the upstream client is
called, an upstream error is propagated with the cache untouched, and a
success stores the fresh list, overwriting the mistyped entry. -/
theorem C10_mistyped_entry (call : CalSrv) (c : CacheState) (nowTime : DateTime)
    (nowT : Nat) (hother : cacheGet c nowT = some .other) :
    (∀ e, call (rfc3339Local (windowTimes nowTime).1)
        (rfc3339Local (windowTimes nowTime).2) = .error e →
      fetchEvents (some call) c nowTime nowT = some (.error e, c)) ∧
    (∀ items res, call (rfc3339Local (windowTimes nowTime).1)
        (rfc3339Local (windowTimes nowTime).2) = .ok items →
      transformAll items = some res →
      fetchEvents (some call) c nowTime nowT = some (.ok res, cacheSet c nowT res) ∧
      (cacheSet c nowT res).entry =
        some (.evs res, if c.defaultDuration > 0 then nowT + c.defaultDuration else 0)) := by
  constructor
  · intro e herr
    simp [fetchEvents, hother, herr]
  · intro items res hok hres
    refine ⟨?_, rfl⟩
    simp [fetchEvents, hother, hok, hres]

/-- C10 witness: a mistyped cache entry with a working upstream client
yields the fresh list and overwrites the slot. -/
theorem C10_mistyped_entry_witness :
    cacheGet otherCache 50 = some .other ∧
    fetchEvents (some srvOk) otherCache now0 50 =
      some (.ok [⟨"Standup", "2024-05-01T09:00:00Z", "2024-05-01T09:30:00Z", "", ""⟩],
        cacheSet otherCache 50 [⟨"Standup", "2024-05-01T09:00:00Z", "2024-05-01T09:30:00Z", "", ""⟩]) :=
  ⟨by decide,
    ((C10_mistyped_entry srvOk otherCache now0 50 (by decide)).2
      [sampleItem] [⟨"Standup", "2024-05-01T09:00:00Z", "2024-05-01T09:30:00Z", "", ""⟩]
      rfl (by decide)).1⟩

/-- C5: for a record exposing start and end components, the normalized
`start` (resp. `end`) is the precise `DateTime` field when non-empty and
the `Date` field otherwise, copied verbatim (no conversion); when both
fields are empty the output is the empty string and no error occurs. -/
theorem C5_start_end_selection (item : CalItem) (st en : EventDateTime)
    (h1 : item.Start = some st) (h2 : item.End = some en) :
    ∃ ev, transformEvent item = some ev ∧
      (st.DateTime ≠ "" → ev.Start = st.DateTime) ∧
      (st.DateTime = "" → ev.Start = st.Date) ∧
      (en.DateTime ≠ "" → ev.End = en.DateTime) ∧
      (en.DateTime = "" → ev.End = en.Date) ∧
      (st.DateTime = "" → st.Date = "" → ev.Start = "") ∧
      (en.DateTime = "" → en.Date = "" → ev.End = "") := by
  refine ⟨⟨item.Summary, if st.DateTime = "" then st.Date else st.DateTime,
      if en.DateTime = "" then en.Date else en.DateTime, item.Description, item.Location⟩,
    by simp [transformEvent, h1, h2], ?_, ?_, ?_, ?_, ?_, ?_⟩ <;>
    · intros
      simp_all

/-- C5 witness: the all-day record of the spec's scenario 2 (date-only
fields). -/
theorem C5_start_end_selection_witness :
    (⟨"Holiday", "", "", some ⟨"", "2024-05-06"⟩, some ⟨"", "2024-05-07"⟩⟩ : CalItem).Start
        = some ⟨"", "2024-05-06"⟩ ∧
    ∃ ev, transformEvent ⟨"Holiday", "", "", some ⟨"", "2024-05-06"⟩, some ⟨"", "2024-05-07"⟩⟩
        = some ev ∧ ev.Start = "2024-05-06" ∧ ev.End = "2024-05-07" := by
  refine ⟨rfl, ?_⟩
  obtain ⟨ev, hev, _, hd, _, hd2, _, _⟩ :=
    C5_start_end_selection ⟨"Holiday", "", "", some ⟨"", "2024-05-06"⟩, some ⟨"", "2024-05-07"⟩⟩
      ⟨"", "2024-05-06"⟩ ⟨"", "2024-05-07"⟩ rfl rfl
  exact ⟨ev, hev, hd rfl, hd2 rfl⟩

/-- C6 counterexample: the claim says normalizing never panics on a
malformed record with missing optional fields, but a record whose
`Start`/`End` pointers are nil makes `transformEvent` dereference nil
(src/main.go line 42), a panic — modelled as `none`. -/
theorem C6_counterexample :
    transformEvent ⟨"Meeting", "", "", none, none⟩ = none := rfl

/-- C6 (amended): for every record whose start and end components are
present (non-nil pointers), normalization never panics, and missing or
empty optional fields degrade to empty strings in the output. -/
theorem C6_no_panic_when_start_end_present (item : CalItem) (st en : EventDateTime)
    (h1 : item.Start = some st) (h2 : item.End = some en) :
    ∃ ev, transformEvent item = some ev ∧
      (item.Summary = "" → ev.Title = "") ∧
      (item.Description = "" → ev.Description = "") ∧
      (item.Location = "" → ev.Location = "") ∧
      (st.DateTime = "" → st.Date = "" → ev.Start = "") ∧
      (en.DateTime = "" → en.Date = "" → ev.End = "") := by
  refine ⟨⟨item.Summary, if st.DateTime = "" then st.Date else st.DateTime,
      if en.DateTime = "" then en.Date else en.DateTime, item.Description, item.Location⟩,
    by simp [transformEvent, h1, h2], ?_, ?_, ?_, ?_, ?_⟩ <;>
    · intros
      simp_all

/-- C6 witness: a record with every optional field empty but start/end
components present normalizes to the all-empty event without panic. -/
theorem C6_no_panic_witness :
    (⟨"", "", "", some ⟨"", ""⟩, some ⟨"", ""⟩⟩ : CalItem).Start = some ⟨"", ""⟩ ∧
    ∃ ev, transformEvent ⟨"", "", "", some ⟨"", ""⟩, some ⟨"", ""⟩⟩ = some ev ∧
      ev.Title = "" ∧ ev.Description = "" ∧ ev.Location = "" ∧ ev.Start = "" ∧ ev.End = "" := by
  refine ⟨rfl, ?_⟩
  obtain ⟨ev, hev, ht, hd, hl, hs, he⟩ :=
    C6_no_panic_when_start_end_present ⟨"", "", "", some ⟨"", ""⟩, some ⟨"", ""⟩⟩
      ⟨"", ""⟩ ⟨"", ""⟩ rfl rfl
  exact ⟨ev, hev, ht rfl, hd rfl, hl rfl, hs rfl rfl, he rfl rfl⟩

/-- C7: when `fetchEvents` fails, the handler answers 500 with the JSON
content type and body `{"error":"Failed to fetch events"}`, whatever the
underlying error `e` was — the body is this fixed string independent of
`e`, so the detail never reaches the client, while the server-side log
line carries it; when the response encoding fails after a successful
fetch, the same treatment applies with message "Failed to encode
response". -/
theorem C7_error_responses (srv : Option CalSrv) (c : CacheState) (nowTime : DateTime)
    (nowT : Nat) (writeErr : Option String) (e we : String) (evs : List Event)
    (c2 : CacheState) :
    (fetchEvents srv c nowTime nowT = some (.error e, c2) →
      handleRequest srv c nowTime nowT writeErr =
        some (⟨500, "application/json", "\x7b\"error\":\"Failed to fetch events\"\x7d\n",
          ["Error: Failed to fetch events: " ++ e]⟩, c2)) ∧
    (fetchEvents srv c nowTime nowT = some (.ok evs, c2) →
      handleRequest srv c nowTime nowT (some we) =
        some (⟨500, "application/json", "\x7b\"error\":\"Failed to encode response\"\x7d\n",
          ["Error: Failed to encode response: " ++ we]⟩, c2)) := by
  constructor <;> intro h <;> simp only [handleRequest, h] <;> rfl

/-- C7 witness: scenario 3 — a failing upstream call yields the 500
envelope with the generic message, the detail only in the log. -/
theorem C7_error_responses_witness :
    fetchEvents (some srvErr) missCache now0 50 = some (.error "network unreachable", missCache) ∧
    handleRequest (some srvErr) missCache now0 50 none =
      some (⟨500, "application/json", "\x7b\"error\":\"Failed to fetch events\"\x7d\n",
        ["Error: Failed to fetch events: network unreachable"]⟩, missCache) := by
  refine ⟨rfl, ?_⟩
  exact (C7_error_responses (some srvErr) missCache now0 50 none "network unreachable"
    "" [] missCache).1 rfl

/-- C8 counterexample: a successful fetch of zero upstream items
produces a 200 whose body is the JSON literal `null` (the Go accumulator
slice stays nil and marshals as `null`), which is not a JSON array — the
claim's "possibly the empty array" does not hold on the code. -/
theorem C8_counterexample :
    handleRequest (some srvEmpty) missCache now0 50 none =
      some (⟨200, "application/json", "null\n", []⟩, cacheSet missCache 50 []) ∧
    ¬ isJsonArrayOutput "null\n" := by
  refine ⟨by decide, ?_⟩
  rintro ⟨t, ht⟩
  have hd := congrArg String.data ht
  simp [String.data_append] at hd

/-- C8 (amended): every successful fetch yields a 200 with JSON content
type whose body is the encoded event list plus newline; that body is a
JSON array whenever at least one event is present, and the literal
`null` when the list is empty. -/
theorem C8_success_response (srv : Option CalSrv) (c : CacheState) (nowTime : DateTime)
    (nowT : Nat) (evs : List Event) (c2 : CacheState)
    (h : fetchEvents srv c nowTime nowT = some (.ok evs, c2)) :
    handleRequest srv c nowTime nowT none =
      some (⟨200, "application/json", encodeEventList evs ++ "\n", []⟩, c2) ∧
    (evs ≠ [] → isJsonArrayOutput (encodeEventList evs ++ "\n")) ∧
    (evs = [] → encodeEventList evs = "null") := by
  refine ⟨by simp only [handleRequest, h], ?_, fun hnil => by simp [hnil, encodeEventList]⟩
  intro hne
  match evs with
  | [] => exact absurd rfl hne
  | ev :: rest =>
    refine ⟨encodeEvent ev ++ String.join (rest.map (fun x => "," ++ encodeEvent x)), ?_⟩
    simp [encodeEventList, String.append_assoc]

/-- C8 witness: a one-event upstream answer gives a 200 whose body is a
JSON array. -/
theorem C8_success_response_witness :
    fetchEvents (some srvOk) missCache now0 50 =
      some (.ok [⟨"Standup", "2024-05-01T09:00:00Z", "2024-05-01T09:30:00Z", "", ""⟩],
        cacheSet missCache 50 [⟨"Standup", "2024-05-01T09:00:00Z", "2024-05-01T09:30:00Z", "", ""⟩]) ∧
    handleRequest (some srvOk) missCache now0 50 none =
      some (⟨200, "application/json",
        encodeEventList [⟨"Standup", "2024-05-01T09:00:00Z", "2024-05-01T09:30:00Z", "", ""⟩] ++ "\n",
        []⟩, cacheSet missCache 50 [⟨"Standup", "2024-05-01T09:00:00Z", "2024-05-01T09:30:00Z", "", ""⟩]) := by
  refine ⟨rfl, ?_⟩
  exact (C8_success_response (some srvOk) missCache now0 50
    [⟨"Standup", "2024-05-01T09:00:00Z", "2024-05-01T09:30:00Z", "", ""⟩]
    (cacheSet missCache 50 [⟨"Standup", "2024-05-01T09:00:00Z", "2024-05-01T09:30:00Z", "", ""⟩])
    rfl).1

/-- C9: the serialized form always opens with the mandatory title, start
and end pairs; whenever the description is empty the output is exactly
the form with no description key at all (the location pair conditionally
present), and symmetrically whenever the location is empty the output is
exactly the form with no location key — so each empty optional field's
key is omitted independently of the other field — while a non-empty
description (resp. location) always appears as its key/value pair;
meanwhile the in-memory `Event` built by the normalizer always carries
the record's description and location as (possibly empty) strings, never
an absent value. -/
theorem C9_serialization_omits_empty (ev : Event) (item : CalItem) (st en : EventDateTime)
    (h1 : item.Start = some st) (h2 : item.End = some en) :
    (∃ rest, encodeEvent ev =
      "\x7b\"title\":" ++ jsonQuote ev.Title ++ ",\"start\":" ++ jsonQuote ev.Start ++
        ",\"end\":" ++ jsonQuote ev.End ++ rest) ∧
    (ev.Description = "" →
      encodeEvent ev = "\x7b\"title\":" ++ jsonQuote ev.Title ++ ",\"start\":" ++
        jsonQuote ev.Start ++ ",\"end\":" ++ jsonQuote ev.End ++
        (if ev.Location = "" then "" else ",\"location\":" ++ jsonQuote ev.Location) ++
        "\x7d") ∧
    (ev.Location = "" →
      encodeEvent ev = "\x7b\"title\":" ++ jsonQuote ev.Title ++ ",\"start\":" ++
        jsonQuote ev.Start ++ ",\"end\":" ++ jsonQuote ev.End ++
        (if ev.Description = "" then ""
         else ",\"description\":" ++ jsonQuote ev.Description) ++
        "\x7d") ∧
    (ev.Description ≠ "" → ∃ pre post, encodeEvent ev =
      pre ++ ",\"description\":" ++ jsonQuote ev.Description ++ post) ∧
    (ev.Location ≠ "" → ∃ pre, encodeEvent ev =
      pre ++ ",\"location\":" ++ jsonQuote ev.Location ++ "\x7d") ∧
    (transformEvent item).map Event.Description = some item.Description ∧
    (transformEvent item).map Event.Location = some item.Location := by
  refine ⟨⟨(if ev.Description = "" then "" else ",\"description\":" ++ jsonQuote ev.Description) ++
      (if ev.Location = "" then "" else ",\"location\":" ++ jsonQuote ev.Location) ++ "\x7d",
      by simp [encodeEvent, String.append_assoc]⟩,
    fun hd => by simp [encodeEvent, hd],
    fun hl => by simp [encodeEvent, hl],
    fun hd => ?_, fun hl => ?_,
    by simp [transformEvent, h1, h2], by simp [transformEvent, h1, h2]⟩
  · refine ⟨"\x7b\"title\":" ++ jsonQuote ev.Title ++ ",\"start\":" ++ jsonQuote ev.Start ++
        ",\"end\":" ++ jsonQuote ev.End,
      (if ev.Location = "" then "" else ",\"location\":" ++ jsonQuote ev.Location) ++ "\x7d", ?_⟩
    simp [encodeEvent, hd, String.append_assoc]
  · refine ⟨"\x7b\"title\":" ++ jsonQuote ev.Title ++ ",\"start\":" ++ jsonQuote ev.Start ++
        ",\"end\":" ++ jsonQuote ev.End ++
        (if ev.Description = "" then "" else ",\"description\":" ++ jsonQuote ev.Description), ?_⟩
    simp [encodeEvent, hl, String.append_assoc]

/-- C9 witness: the test event (empty description and location)
serializes to exactly the three mandatory pairs, and an event with an
empty description but non-empty location omits only the description
key. -/
theorem C9_serialization_witness :
    sampleEvent.Description = "" ∧
    encodeEvent sampleEvent =
      "\x7b\"title\":\"Dummy Event\",\"start\":\"2023-03-01T09:00:00Z\",\"end\":\"2023-03-01T10:00:00Z\"\x7d" ∧
    encodeEvent ⟨"Standup", "2024-05-06", "2024-05-07", "", "Room 5"⟩ =
      "\x7b\"title\":\"Standup\",\"start\":\"2024-05-06\",\"end\":\"2024-05-07\",\"location\":\"Room 5\"\x7d" := by
  refine ⟨rfl, ?_, ?_⟩
  · have h := (C9_serialization_omits_empty sampleEvent sampleItem
      ⟨"2024-05-01T09:00:00Z", ""⟩ ⟨"2024-05-01T09:30:00Z", ""⟩ rfl rfl).2.1 rfl
    rw [h]
    decide
  · have h := (C9_serialization_omits_empty ⟨"Standup", "2024-05-06", "2024-05-07", "", "Room 5"⟩
      sampleItem ⟨"2024-05-01T09:00:00Z", ""⟩ ⟨"2024-05-01T09:30:00Z", ""⟩ rfl rfl).2.1 rfl
    rw [h]
    decide

end GCalJSON
